import Mathlib

/-!
Shallow embedding of the `empty-response-cleaner` chat-extension core:
the emptiness classifier (`isSwipeEmpty`), the reconciliation plan
computation (`cleanMessageSwipes`, the analyze-only form of `src/index.js`),
the direct-mutation form (`cleanMessageSwipesDirect`, from the
`src/unnamed/part_001` and `src/unnamed/part_000` variants), the pointer
repair (`repairAndRerenderMessage`), the delegated deletion loop, and the
three variants of `processLastMessage`.

Modelling conventions for the JavaScript value domain:
  - Text is `List Char`; an optional/nullable string field is
    `Option (List Char)` with `none` standing for `undefined`/`null`
    (or, for `swipes`, any non-array value).
  - `swipe_id` is a `JsNum`: an integer number, or `nan` standing for
    `NaN`/`undefined` (every numeric comparison on `nan` is `false` and
    indexing an array with it yields `undefined`).
  - `is_user` is an `AuthorFlag` so that the source's strict comparison
    `=== false` is distinguishable from mere falsiness.
  - Metadata entries (`swipe_info` elements) are opaque records tagged by
    a `Nat`; an entry is `Option Nat` with `none` standing for a
    `null`/`undefined` (falsy) element.
-/

namespace ERC

/-- One JS text value as a list of characters. -/
abbrev Text := List Char

/-- The ECMAScript white-space set used by `String.prototype.trim`:
TAB, LF, VT, FF, CR, SP, NBSP, and the Unicode space separators plus
LS, PS and ZWNBSP. -/
def jsWhitespace (c : Char) : Bool :=
  c.toNat = 0x9 || c.toNat = 0xA || c.toNat = 0xB || c.toNat = 0xC ||
  c.toNat = 0xD || c.toNat = 0x20 || c.toNat = 0xA0 || c.toNat = 0x1680 ||
  (0x2000 ≤ c.toNat && c.toNat ≤ 0x200A) ||
  c.toNat = 0x2028 || c.toNat = 0x2029 || c.toNat = 0x202F ||
  c.toNat = 0x205F || c.toNat = 0x3000 || c.toNat = 0xFEFF

/-- Embedding of `String.prototype.trim`: strip leading and trailing white space. -/
def jsTrim (s : Text) : Text :=
  ((s.dropWhile jsWhitespace).reverse.dropWhile jsWhitespace).reverse

/-- Embedding of `isSwipeEmpty(swipe)` from the source:
`!swipe || swipe.trim() === ''`.  `none` (absent/null) is falsy; among
strings exactly `""` is falsy. -/
def isSwipeEmpty : Option Text → Bool
  | none => true
  | some s => s.isEmpty || (jsTrim s).isEmpty

/-- A JS number used as `swipe_id`: an integer, or `nan` standing for
`NaN`/`undefined` (all numeric comparisons false, array indexing misses). -/
inductive JsNum where
  | num (n : Int)
  | nan
deriving DecidableEq, Repr

/-- Comparison `id >= m` for a JS `swipe_id` against a length. -/
def JsNum.geNat : JsNum → Nat → Bool
  | .num n, m => (m : Int) ≤ n
  | .nan, _ => false

/-- Comparison `id < 0` for a JS `swipe_id`. -/
def JsNum.ltZero : JsNum → Bool
  | .num n => n < 0
  | .nan => false

/-- Indexing `xs[id]` for a JS array of (possibly null) elements indexed by a
JS number: defined exactly when the index is a non-negative integer in
range, `undefined` (`none`) otherwise. -/
def jsIndex {α : Type} (xs : List (Option α)) : JsNum → Option α
  | .num n => if 0 ≤ n then xs.getD n.toNat none else none
  | .nan => none

/-- The `is_user` field value under the source's strict `=== false`
and `=== true` tests: a real boolean, or `undefined`/absent, or any
non-boolean value. -/
inductive AuthorFlag where
  | jsTrue
  | jsFalse
  | jsUndefined
  | jsOther
deriving DecidableEq, Repr

/-- One chat message record, with the fields the source reads or writes. -/
structure Message where
  is_user : AuthorFlag
  mes : Option Text
  swipes : Option (List (Option Text))
  swipe_id : JsNum
  swipe_info : Option (List (Option Nat))
deriving DecidableEq, Repr

/-- Result record of the analyze-only `cleanMessageSwipes` in
`src/index.js`. -/
structure CleanResult where
  emptySwipeIndexes : List Nat
  removedSwipes : Nat
  messageDeleted : Bool
  modified : Bool
deriving DecidableEq, Repr

/-- Embedding of `cleanMessageSwipes(message)` from `src/index.js` (lines 171-210):
analyze empty swipes without mutating the message. -/
def cleanMessageSwipes (message : Message) : CleanResult :=
  match message.swipes with
  | none =>
    if isSwipeEmpty message.mes then
      { emptySwipeIndexes := [], removedSwipes := 0,
        messageDeleted := true, modified := true }
    else
      { emptySwipeIndexes := [], removedSwipes := 0,
        messageDeleted := false, modified := false }
  | some swipes =>
    let emptyIdx := (List.range swipes.length).filter
      (fun i => isSwipeEmpty (swipes.getD i none))
    if emptyIdx.length = 0 then
      { emptySwipeIndexes := emptyIdx, removedSwipes := emptyIdx.length,
        messageDeleted := false, modified := false }
    else
      { emptySwipeIndexes := emptyIdx, removedSwipes := emptyIdx.length,
        messageDeleted := decide (emptyIdx.length = swipes.length),
        modified := true }

/-- Result record of the direct-mutation `cleanMessageSwipes` in
`src/unnamed/part_000` and `src/unnamed/part_001`. -/
structure CleanResultP where
  removedSwipes : Nat
  messageDeleted : Bool
  modified : Bool
deriving DecidableEq, Repr

/-- The indices of the non-empty swipes of a swipe list, in ascending
order (the `nonEmptyIndices` the source's filtering loop walks). -/
def keptIndices (swipes : List (Option Text)) : List Nat :=
  (List.range swipes.length).filter
    (fun i => !(isSwipeEmpty (swipes.getD i none)))

/-- The pointer repair of `src/unnamed/part_001` lines 104-113: an
overflowing `swipe_id` is reset to the last valid index, then floored
at 0.  A `nan`/`undefined` pointer fails both comparisons and is left
unchanged. -/
def clampSwipeId (id : JsNum) (len : Nat) : JsNum :=
  let id1 := if id.geNat len then JsNum.num ((len : Int) - 1) else id
  if id1.ltZero then JsNum.num 0 else id1

/-- Embedding of `cleanMessageSwipes(message)` from `src/unnamed/part_001`
(lines 52-120; `part_000` is identical on these lines): clean empty
swipes by direct mutation and report what was done.  Returns the
(possibly mutated) message together with the result record. -/
def cleanMessageSwipesDirect (message : Message) : Message × CleanResultP :=
  match message.swipes with
  | none =>
    if isSwipeEmpty message.mes then
      (message, { removedSwipes := 0, messageDeleted := true, modified := true })
    else
      (message, { removedSwipes := 0, messageDeleted := false, modified := false })
  | some swipes =>
    let nonEmptySwipes := (keptIndices swipes).map (fun i => swipes.getD i none)
    let nonEmptySwipeInfo :=
      match message.swipe_info with
      | some info =>
        ((keptIndices swipes).map (fun i => info.getD i none)).filter Option.isSome
      | none => []
    let removed := swipes.length - nonEmptySwipes.length
    if nonEmptySwipes.length = 0 then
      (message, { removedSwipes := removed, messageDeleted := true, modified := true })
    else if 0 < removed then
      let msg1 : Message :=
        { message with
          swipes := some nonEmptySwipes,
          swipe_info :=
            match message.swipe_info with
            | some _ => some nonEmptySwipeInfo
            | none => message.swipe_info }
      let id2 := clampSwipeId msg1.swipe_id nonEmptySwipes.length
      ({ msg1 with swipe_id := id2, mes := jsIndex nonEmptySwipes id2 },
       { removedSwipes := removed, messageDeleted := false, modified := true })
    else
      (message, { removedSwipes := removed, messageDeleted := false, modified := false })

/-- Embedding of `Number.isInteger(id)` for a modelled `swipe_id`. -/
def JsNum.isInteger : JsNum → Bool
  | .num _ => true
  | .nan => false

/-- The pure state change of `repairAndRerenderMessage(messageIndex)` in
`src/index.js` (lines 78-129): clamp `swipe_id` and force `mes` to the
active swipe.  The DOM re-render and `swipe.refresh` calls are external
effects with no transcript state; they are not modelled. -/
def repairAndRerenderMessage (chat : List Message) (messageIndex : Int) : List Message :=
  if messageIndex < 0 ∨ (chat.length : Int) ≤ messageIndex then chat
  else
    let i := messageIndex.toNat
    match chat.get? i with
    | none => chat
    | some message =>
      if message.is_user = AuthorFlag.jsTrue then chat
      else
        match message.swipes with
        | some swipes =>
          if 0 < swipes.length then
            let currentSwipeId : Int :=
              match message.swipe_id with
              | .num n => n
              | .nan => 0
            let clampedSwipeId : Int :=
              max 0 (min currentSwipeId ((swipes.length : Int) - 1))
            let activeSwipe := jsIndex swipes (.num clampedSwipeId)
            let msg1 : Message :=
              { message with
                swipe_id := .num clampedSwipeId,
                mes := some (activeSwipe.getD []) }
            chat.set i msg1
          else chat
        | none => chat

/-- The last-AI-message locator loop shared by every variant: scan the
transcript from its end and return the first position whose `is_user`
is strictly the boolean `false`; `-1` when none is found. -/
def lastAiMessageIndex (chat : List Message) : Int :=
  match (List.range chat.length).reverse.find?
      (fun i =>
        match chat.get? i with
        | some m => decide (m.is_user = AuthorFlag.jsFalse)
        | none => false) with
  | some i => (i : Int)
  | none => -1

/-- Insert one element into a descending-sorted list, keeping it
descending. -/
def insertDesc (x : Nat) : List Nat → List Nat
  | [] => [x]
  | y :: ys => if y < x then x :: y :: ys else y :: insertDesc x ys

/-- Embedding of `[...xs].sort((a, b) => b - a)` from `src/index.js` line 281: the
numeric descending sort of a copy of the list. -/
def sortDesc : List Nat → List Nat
  | [] => []
  | x :: xs => insertDesc x (sortDesc xs)

/-- Modelled from the spec: the host primitive
`deleteMessageOrVariant(messagePosition, variantPosition)` for a variant
position (the body of SillyTavern's `deleteMessage` is not under `src/`).
Per the spec it removes the variant at that position from the message and
"may not itself repair the pointer", so `swipe_id` and `mes` are left
untouched. -/
def hostDeleteSwipe (chat : List Message) (messageIndex : Nat) (swipeIndex : Nat) :
    List Message :=
  match chat.get? messageIndex with
  | none => chat
  | some message =>
    match message.swipes with
    | some swipes =>
      chat.set messageIndex { message with swipes := some (swipes.eraseIdx swipeIndex) }
    | none => chat

/-- The per-swipe deletion loop of `processLastMessage` in `src/index.js`
(lines 280-296): for each position, call `deleteViaApi`; when it reports
success (`ok` covers both the delete API being available and the call not
rejecting), count the deletion and repair/re-render the message; when it
fails, skip the step and continue with the rest.  Returns the final
transcript, the number of successful deletions, and the list of swipe
positions passed to `deleteViaApi`, in call order. -/
def deleteSwipesLoop (chat : List Message) (messageIndex : Nat)
    (positions : List Nat) (ok : Nat → Bool) : List Message × Nat × List Nat :=
  match positions with
  | [] => (chat, 0, [])
  | p :: rest =>
    if ok p then
      let chat1 := hostDeleteSwipe chat messageIndex p
      let chat2 := repairAndRerenderMessage chat1 (messageIndex : Int)
      let out := deleteSwipesLoop chat2 messageIndex rest ok
      (out.1, out.2.1 + 1, p :: out.2.2)
    else
      let out := deleteSwipesLoop chat messageIndex rest ok
      (out.1, out.2.1, p :: out.2.2)

/-- Embedding of `processLastMessage(isManual)` from `src/index.js` (lines 217-308).
`autoDelete` is `getSettings()?.autoDelete` (absent settings behave as a
falsy gate value); `ok` is the success oracle for `deleteViaApi`, with
argument `none` for a whole-message deletion and `some p` for the swipe at
position `p`.  Returns the transcript after the pass, the boolean the
function returns, and the trace of `deleteViaApi` calls in order. -/
def processLastMessageIdx (chat : List Message) (autoDelete : Option Bool)
    (isManual : Bool) (ok : Option Nat → Bool) :
    List Message × Bool × List (Option Nat) :=
  if chat.length = 0 then (chat, false, [])
  else
    let lastAi := lastAiMessageIndex chat
    if lastAi = -1 then (chat, false, [])
    else if !isManual && !(autoDelete.getD false) then (chat, false, [])
    else
      let i := lastAi.toNat
      match chat.get? i with
      | none => (chat, false, [])
      | some message =>
        let result := cleanMessageSwipes message
        if !result.modified then (chat, false, [])
        else if result.messageDeleted then
          if chat.length ≤ 1 then (chat, false, [])
          else if ok none then (chat.eraseIdx i, true, [none])
          else (chat, false, [none])
        else
          let emptyIndexesDescending := sortDesc result.emptySwipeIndexes
          let out := deleteSwipesLoop chat i emptyIndexesDescending
            (fun p => ok (some p))
          (out.1, decide (0 < out.2.1), out.2.2.map some)

/-- Embedding of `processLastMessage(isManual)` from `src/unnamed/part_001`
(lines 127-191): direct-mutation application, with the sole-message guard
and with `autoDelete` gating only the whole-message deletion of an
automatic pass.  Returns the transcript after the pass and the returned
boolean. -/
def processLastMessage001 (chat : List Message) (autoDelete : Option Bool)
    (isManual : Bool) : List Message × Bool :=
  if chat.length = 0 then (chat, false)
  else
    let lastAi := lastAiMessageIndex chat
    if lastAi = -1 then (chat, false)
    else
      let i := lastAi.toNat
      match chat.get? i with
      | none => (chat, false)
      | some message =>
        let out := cleanMessageSwipesDirect message
        let chat1 := chat.set i out.1
        if !out.2.modified then (chat, false)
        else if out.2.messageDeleted then
          if chat.length ≤ 1 then (chat, false)
          else if !isManual && !(autoDelete.getD false) then (chat1, false)
          else (chat1.eraseIdx i, true)
        else (chat1, true)

/-- Embedding of `processLastMessage(isManual)` from `src/unnamed/part_000`
(lines 124-175): direct-mutation application with no sole-message guard
and no `autoDelete` gate — a planned whole-message deletion is spliced
out unconditionally. -/
def processLastMessage000 (chat : List Message) (_isManual : Bool) :
    List Message × Bool :=
  if chat.length = 0 then (chat, false)
  else
    let lastAi := lastAiMessageIndex chat
    if lastAi = -1 then (chat, false)
    else
      let i := lastAi.toNat
      match chat.get? i with
      | none => (chat, false)
      | some message =>
        let out := cleanMessageSwipesDirect message
        let chat1 := chat.set i out.1
        if !out.2.modified then (chat, false)
        else if out.2.messageDeleted then (chat1.eraseIdx i, true)
        else (chat1, true)

/-- The invariant C2 claims of a message after pointer repair: when a
`variants` sequence is present, `activeVariantIndex` is an in-bounds
integer and `activeText` mirrors the active variant. -/
def pointerInvariant (m : Message) : Prop :=
  match m.swipes with
  | some swipes =>
    ∃ k : Fin swipes.length,
      m.swipe_id = JsNum.num (k : Nat) ∧ m.mes = swipes.getD (k : Nat) none
  | none => True

instance (m : Message) : Decidable (pointerInvariant m) := by
  unfold pointerInvariant
  match m.swipes with
  | some swipes => exact inferInstance
  | none => exact inferInstance

/-- Scenario A message of the spec: three swipes of which the first two
are empty, active pointer at 0. -/
def scenarioA : Message :=
  { is_user := .jsFalse, mes := some [],
    swipes := some [some [], some [' ', ' '], some ['H', 'e', 'l', 'l', 'o']],
    swipe_id := .num 0, swipe_info := none }

/-- An AI message whose single swipe is empty (the all-empty sole-message
test subject of C3). -/
def soleEmptyAi : Message :=
  { is_user := .jsFalse, mes := some [], swipes := some [some []],
    swipe_id := .num 0, swipe_info := none }

/-- An AI message with one empty and one non-empty swipe (a partial-removal
subject). -/
def partialEmptyAi : Message :=
  { is_user := .jsFalse, mes := some [], swipes := some [some [], some ['a']],
    swipe_id := .num 0, swipe_info := none }

/-- A user-authored greeting message. -/
def userGreeting : Message :=
  { is_user := .jsTrue, mes := some ['h', 'i'], swipes := none,
    swipe_id := .num 0, swipe_info := none }

/-- An AI message with an empty first swipe and a `NaN`/`undefined`
active-variant pointer. -/
def nanPointerAi : Message :=
  { is_user := .jsFalse, mes := some ['x'],
    swipes := some [some [], some ['a'], some ['b']],
    swipe_id := .nan, swipe_info := none }

/-- An AI message whose two swipes are both empty. -/
def allEmptyTwoSwipes : Message :=
  { is_user := .jsFalse, mes := some [], swipes := some [some [], some []],
    swipe_id := .num 0, swipe_info := none }

/-- An AI message with aligned per-swipe metadata and one empty swipe. -/
def metaAlignedAi : Message :=
  { is_user := .jsFalse, mes := some ['a'],
    swipes := some [some ['a'], some [], some ['b']],
    swipe_id := .num 2, swipe_info := some [some 10, some 20, some 30] }

/-- An AI message with two swipes, an out-of-bounds integer pointer and
one empty swipe. -/
def outOfBoundsAi : Message :=
  { is_user := .jsFalse, mes := some [], swipes := some [some [], some ['a']],
    swipe_id := .num 5, swipe_info := none }

/-- A message whose `is_user` field is absent. -/
def flaglessNote : Message :=
  { is_user := .jsUndefined, mes := some ['n'], swipes := none,
    swipe_id := .nan, swipe_info := none }

/-- A message whose `is_user` field holds a non-boolean value. -/
def oddFlagNote : Message :=
  { is_user := .jsOther, mes := some ['m'], swipes := none,
    swipe_id := .nan, swipe_info := none }

/-- The function `jsTrim` yields the empty string exactly on all-whitespace input. -/
lemma jsTrim_eq_nil_iff (s : Text) :
    jsTrim s = [] ↔ ∀ c ∈ s, jsWhitespace c = true := by
  unfold jsTrim
  constructor
  · intro h c hc
    rw [List.reverse_eq_nil_iff, List.dropWhile_eq_nil_iff] at h
    have hsplit := List.takeWhile_append_dropWhile (p := jsWhitespace) (l := s)
    rw [← hsplit] at hc
    rcases List.mem_append.mp hc with htk | hdr
    · exact List.mem_takeWhile_imp htk
    · exact h c (List.mem_reverse.mpr hdr)
  · intro h
    have hdrop : s.dropWhile jsWhitespace = [] :=
      List.dropWhile_eq_nil_iff.mpr h
    rw [hdrop]
    rfl

/-- A string with a non-whitespace character is not all-whitespace and
is nonempty, so `isSwipeEmpty` rejects it. -/
lemma isSwipeEmpty_false_of_nonWhitespace {s : Text} {c : Char}
    (hc : c ∈ s) (hw : jsWhitespace c = false) :
    isSwipeEmpty (some s) = false := by
  have hne : s ≠ [] := by
    intro h
    rw [h] at hc
    exact absurd hc (List.not_mem_nil c)
  have htrim : jsTrim s ≠ [] := by
    intro h
    have := (jsTrim_eq_nil_iff s).mp h c hc
    rw [hw] at this
    exact Bool.false_ne_true this
  simp [isSwipeEmpty, List.isEmpty_iff, hne, htrim]

/-- Claim C9: the emptiness classifier is total and pure; it returns
`true` on absent/null input and on every string made only of whitespace
(including the empty string), and `false` on every string containing at
least one non-whitespace character. -/
theorem c9_isSwipeEmpty_classifier :
    isSwipeEmpty none = true ∧
    (∀ s : Text, (∀ c ∈ s, jsWhitespace c = true) → isSwipeEmpty (some s) = true) ∧
    (∀ s : Text, (∃ c ∈ s, jsWhitespace c = false) → isSwipeEmpty (some s) = false) := by
  refine ⟨rfl, ?_, ?_⟩
  · intro s h
    have htrim : jsTrim s = [] := (jsTrim_eq_nil_iff s).mpr h
    simp [isSwipeEmpty, htrim]
  · intro s h
    obtain ⟨c, hc, hw⟩ := h
    exact isSwipeEmpty_false_of_nonWhitespace hc hw

/-- Witness for C9 at concrete inputs: a two-space string is classified
empty, a single letter is not. -/
theorem c9_isSwipeEmpty_classifier_witness :
    isSwipeEmpty (some [' ', ' ']) = true ∧ isSwipeEmpty (some ['a']) = false :=
  ⟨c9_isSwipeEmpty_classifier.2.1 [' ', ' '] (by decide),
   c9_isSwipeEmpty_classifier.2.2 ['a'] (by decide)⟩

/-- Claim C10: the locator counts a message as AI-authored only when its
author flag is strictly the boolean `false`: every located position holds
such a message, and a transcript whose messages all carry an absent,
undefined, non-boolean, or `true` flag yields NOT_FOUND (`-1`). -/
theorem c10_locator_strict_false :
    (∀ chat : List Message, (∀ m ∈ chat, m.is_user ≠ AuthorFlag.jsFalse) →
      lastAiMessageIndex chat = -1) ∧
    (∀ (chat : List Message) (i : Nat), lastAiMessageIndex chat = (i : Int) →
      ∃ m, chat.get? i = some m ∧ m.is_user = AuthorFlag.jsFalse) := by
  constructor
  · intro chat h
    unfold lastAiMessageIndex
    have hnone : (List.range chat.length).reverse.find?
        (fun i => match chat.get? i with
          | some m => decide (m.is_user = AuthorFlag.jsFalse)
          | none => false) = none := by
      rw [List.find?_eq_none]
      intro j _
      cases hget : chat.get? j with
      | none => simp
      | some m =>
        simp only [Bool.not_eq_true, decide_eq_false_iff_not]
        exact h m (List.get?_mem hget)
    rw [hnone]
  · intro chat i h
    unfold lastAiMessageIndex at h
    rcases hfind : (List.range chat.length).reverse.find?
        (fun i => match chat.get? i with
          | some m => decide (m.is_user = AuthorFlag.jsFalse)
          | none => false) with _ | j
    · rw [hfind] at h
      have h2 : (-1 : Int) = (i : Int) := h
      exact absurd h2 (by omega)
    · rw [hfind] at h
      have h2 : (j : Int) = (i : Int) := h
      have hji : j = i := by exact_mod_cast h2
      subst hji
      have hp := List.find?_some hfind
      cases hget : chat.get? j with
      | none =>
        rw [hget] at hp
        exact absurd hp (by simp)
      | some m =>
        rw [hget] at hp
        exact ⟨m, rfl, of_decide_eq_true hp⟩

/-- Witness for C10: a transcript holding only a flag-absent message and a
non-boolean-flag message is NOT_FOUND for the locator. -/
theorem c10_locator_strict_false_witness :
    lastAiMessageIndex [flaglessNote, oddFlagNote] = -1 :=
  c10_locator_strict_false.1 [flaglessNote, oddFlagNote] (by decide)

/-- Characterization of the analyze-only plan when a swipes array is
present: the empty positions are the filter of the index range, and the
flags follow the no-empty / all-empty / partial trichotomy. -/
lemma cleanMessageSwipes_some (m : Message) (l : List (Option Text))
    (hs : m.swipes = some l) :
    cleanMessageSwipes m =
      if ((List.range l.length).filter
            (fun i => isSwipeEmpty (l.getD i none))).length = 0 then
        { emptySwipeIndexes :=
            (List.range l.length).filter (fun i => isSwipeEmpty (l.getD i none)),
          removedSwipes :=
            ((List.range l.length).filter
              (fun i => isSwipeEmpty (l.getD i none))).length,
          messageDeleted := false, modified := false }
      else
        { emptySwipeIndexes :=
            (List.range l.length).filter (fun i => isSwipeEmpty (l.getD i none)),
          removedSwipes :=
            ((List.range l.length).filter
              (fun i => isSwipeEmpty (l.getD i none))).length,
          messageDeleted :=
            decide (((List.range l.length).filter
              (fun i => isSwipeEmpty (l.getD i none))).length = l.length),
          modified := true } := by
  unfold cleanMessageSwipes
  rw [hs]

/-- Claim C1: the plan computation behaves as specified.  With no proper
swipes sequence, the plan deletes the whole message exactly when the
displayed text is empty and is a no-op otherwise.  With a swipes
sequence: the empty positions are collected in ascending index order; no
empty position gives a no-op; all positions empty (any count, including
one) gives whole-message deletion with priority over partial removal;
otherwise the empty positions are listed with `messageDeleted = false`
and `modified = true`. -/
theorem c1_plan_computation (m : Message) :
    (m.swipes = none →
      (isSwipeEmpty m.mes = true →
        cleanMessageSwipes m =
          { emptySwipeIndexes := [], removedSwipes := 0,
            messageDeleted := true, modified := true }) ∧
      (isSwipeEmpty m.mes = false →
        cleanMessageSwipes m =
          { emptySwipeIndexes := [], removedSwipes := 0,
            messageDeleted := false, modified := false })) ∧
    (∀ l, m.swipes = some l →
      (∀ i : Nat, i ∈ (cleanMessageSwipes m).emptySwipeIndexes ↔
        i < l.length ∧ isSwipeEmpty (l.getD i none) = true) ∧
      List.Pairwise (· < ·) (cleanMessageSwipes m).emptySwipeIndexes ∧
      ((cleanMessageSwipes m).emptySwipeIndexes = [] →
        (cleanMessageSwipes m).modified = false ∧
        (cleanMessageSwipes m).messageDeleted = false) ∧
      (l ≠ [] ∧ (cleanMessageSwipes m).emptySwipeIndexes.length = l.length →
        (cleanMessageSwipes m).messageDeleted = true ∧
        (cleanMessageSwipes m).modified = true) ∧
      ((cleanMessageSwipes m).emptySwipeIndexes ≠ [] ∧
          (cleanMessageSwipes m).emptySwipeIndexes.length ≠ l.length →
        (cleanMessageSwipes m).messageDeleted = false ∧
        (cleanMessageSwipes m).modified = true)) := by
  constructor
  · intro hs
    constructor
    · intro he
      simp [cleanMessageSwipes, hs, he]
    · intro he
      simp [cleanMessageSwipes, hs, he]
  · intro l hs
    have hchar := cleanMessageSwipes_some m l hs
    by_cases h0 : ((List.range l.length).filter
        (fun i => isSwipeEmpty (l.getD i none))).length = 0
    · rw [if_pos h0] at hchar
      rw [hchar]
      dsimp only
      refine ⟨?_, ?_, ?_, ?_, ?_⟩
      · intro i
        simp [List.mem_filter, List.mem_range]
      · exact (List.pairwise_lt_range _).filter _
      · intro _
        exact ⟨rfl, rfl⟩
      · rintro ⟨hne, hlen⟩
        rw [h0] at hlen
        exact absurd (List.length_eq_zero.mp hlen.symm) hne
      · rintro ⟨hne, _⟩
        exact absurd (List.length_eq_zero.mp h0) hne
    · rw [if_neg h0] at hchar
      rw [hchar]
      dsimp only
      refine ⟨?_, ?_, ?_, ?_, ?_⟩
      · intro i
        simp [List.mem_filter, List.mem_range]
      · exact (List.pairwise_lt_range _).filter _
      · intro hnil
        refine absurd ?_ h0
        rw [hnil]
        rfl
      · rintro ⟨_, hlen⟩
        exact ⟨decide_eq_true hlen, rfl⟩
      · rintro ⟨_, hlen⟩
        exact ⟨decide_eq_false hlen, rfl⟩

/-- Witness for C1 at the spec's Scenario A message: the plan is a
partial removal, not a whole-message deletion. -/
theorem c1_plan_computation_witness :
    (cleanMessageSwipes scenarioA).messageDeleted = false ∧
    (cleanMessageSwipes scenarioA).modified = true :=
  ((c1_plan_computation scenarioA).2
      [some [], some [' ', ' '], some ['H', 'e', 'l', 'l', 'o']] rfl).2.2.2.2
    ⟨by decide, by decide⟩

/-- The delegated deletion loop calls every position in order; it counts
only the successes, and only successful steps change the transcript. -/
lemma deleteSwipesLoop_spec (chat : List Message) (messageIndex : Nat)
    (positions : List Nat) (ok : Nat → Bool) :
    (deleteSwipesLoop chat messageIndex positions ok).2.2 = positions ∧
    (deleteSwipesLoop chat messageIndex positions ok).2.1 =
      (positions.filter ok).length ∧
    (deleteSwipesLoop chat messageIndex positions ok).1 =
      positions.foldl
        (fun c p =>
          if ok p then
            repairAndRerenderMessage (hostDeleteSwipe c messageIndex p)
              (messageIndex : Int)
          else c) chat := by
  induction positions generalizing chat with
  | nil => exact ⟨rfl, rfl, rfl⟩
  | cons p rest ih =>
    by_cases hp : ok p = true
    · obtain ⟨h1, h2, h3⟩ := ih
        (repairAndRerenderMessage (hostDeleteSwipe chat messageIndex p)
          (messageIndex : Int))
      simp only [deleteSwipesLoop, hp, if_true, List.filter_cons, List.foldl_cons]
      exact ⟨by rw [h1], by rw [h2, List.length_cons], by rw [h3]⟩
    · obtain ⟨h1, h2, h3⟩ := ih chat
      have hp2 : ok p = false := by
        cases hokp : ok p with
        | false => rfl
        | true => exact absurd hokp hp
      simp only [deleteSwipesLoop, hp2, Bool.false_eq_true, if_false,
        List.filter_cons, List.foldl_cons]
      exact ⟨by rw [h1], by rw [h2], by rw [h3]⟩

/-- Inserting an element smaller than every element of a list puts it at
the end. -/
lemma insertDesc_of_forall_lt {x : Nat} {l : List Nat} (h : ∀ y ∈ l, x < y) :
    insertDesc x l = l ++ [x] := by
  induction l with
  | nil => rfl
  | cons y ys ih =>
    have hxy : x < y := h y (List.mem_cons_self y ys)
    rw [insertDesc, if_neg (by omega)]
    rw [ih (fun z hz => h z (List.mem_cons_of_mem y hz))]
    rfl

/-- On a strictly ascending list the source's descending sort is exactly
list reversal. -/
lemma sortDesc_of_pairwise_lt {l : List Nat} (h : List.Pairwise (· < ·) l) :
    sortDesc l = l.reverse := by
  induction l with
  | nil => rfl
  | cons x xs ih =>
    obtain ⟨hhead, htail⟩ := List.pairwise_cons.mp h
    rw [sortDesc, ih htail]
    rw [insertDesc_of_forall_lt (fun y hy => hhead y (List.mem_reverse.mp hy))]
    rw [List.reverse_cons]

/-- The plan's empty positions are always strictly ascending. -/
lemma pairwise_lt_emptySwipeIndexes (m : Message) :
    List.Pairwise (· < ·) (cleanMessageSwipes m).emptySwipeIndexes := by
  cases hs : m.swipes with
  | none =>
    have hchar : cleanMessageSwipes m =
        if isSwipeEmpty m.mes = true then
          { emptySwipeIndexes := [], removedSwipes := 0,
            messageDeleted := true, modified := true }
        else
          { emptySwipeIndexes := [], removedSwipes := 0,
            messageDeleted := false, modified := false } := by
      unfold cleanMessageSwipes
      rw [hs]
    rw [hchar]
    split <;> exact List.Pairwise.nil
  | some l =>
    rw [cleanMessageSwipes_some m l hs]
    split <;> exact (List.pairwise_lt_range _).filter _

/-- Claim C6: during delegated application, a per-step deletion failure is
non-fatal: the failed position is skipped and the remaining positions are
still processed, the reported count equals the number of deletions that
actually succeeded, and the transcript evolves by host-delete followed by
pointer re-clamp after each successful step only (failed steps leave the
transcript untouched). -/
theorem c6_per_step_failure_nonfatal (chat : List Message) (messageIndex : Nat)
    (positions : List Nat) (ok : Nat → Bool) :
    (deleteSwipesLoop chat messageIndex positions ok).2.1 =
      (positions.filter ok).length ∧
    (deleteSwipesLoop chat messageIndex positions ok).1 =
      positions.foldl
        (fun c p =>
          if ok p then
            repairAndRerenderMessage (hostDeleteSwipe c messageIndex p)
              (messageIndex : Int)
          else c) chat ∧
    (deleteSwipesLoop chat messageIndex positions ok).2.2 = positions := by
  obtain ⟨h1, h2, h3⟩ := deleteSwipesLoop_spec chat messageIndex positions ok
  exact ⟨h2, h3, h1⟩

/-- Claim C8: within one delegated pass the `deleteViaApi` calls are made
one at a time in strictly descending index order over the plan's empty
positions: the call trace equals the descending sort of the (ascending)
empty positions, and it is strictly descending, so no position is called
while a higher empty position is still unprocessed. -/
theorem c8_descending_sequential_calls (m : Message) (chat : List Message)
    (messageIndex : Nat) (ok : Nat → Bool) :
    sortDesc ((cleanMessageSwipes m).emptySwipeIndexes) =
      ((cleanMessageSwipes m).emptySwipeIndexes).reverse ∧
    List.Pairwise (· > ·) (sortDesc ((cleanMessageSwipes m).emptySwipeIndexes)) ∧
    (deleteSwipesLoop chat messageIndex
        (sortDesc ((cleanMessageSwipes m).emptySwipeIndexes)) ok).2.2 =
      sortDesc ((cleanMessageSwipes m).emptySwipeIndexes) := by
  have hpl := pairwise_lt_emptySwipeIndexes m
  have hsort := sortDesc_of_pairwise_lt hpl
  refine ⟨hsort, ?_,
    (deleteSwipesLoop_spec chat messageIndex _ ok).1⟩
  rw [hsort, List.pairwise_reverse]
  exact hpl

/-- Membership in the kept (non-empty) index list. -/
lemma mem_keptIndices {l : List (Option Text)} {i : Nat} :
    i ∈ keptIndices l ↔ i < l.length ∧ isSwipeEmpty (l.getD i none) = false := by
  unfold keptIndices
  simp [List.mem_filter, List.mem_range]

/-- Every entry of the rebuilt swipe list is non-empty. -/
lemma nonEmpty_of_mem_keptMap {l : List (Option Text)} {x : Option Text}
    (hx : x ∈ (keptIndices l).map (fun i => l.getD i none)) :
    isSwipeEmpty x = false := by
  obtain ⟨i, hi, rfl⟩ := List.mem_map.mp hx
  exact (mem_keptIndices.mp hi).2

/-- Reading every position of a list back in order reproduces the list. -/
lemma map_getD_range {β : Type} (l : List β) (d : β) :
    (List.range l.length).map (fun i => l.getD i d) = l := by
  refine List.ext_getElem (by simp) ?_
  intro i h1 h2
  rw [List.getElem_map, List.getElem_range]
  exact List.getD_eq_getElem l d h2

/-- When no swipe is empty, every index is kept. -/
lemma keptIndices_eq_range {l : List (Option Text)}
    (h : ∀ i, i < l.length → isSwipeEmpty (l.getD i none) = false) :
    keptIndices l = List.range l.length := by
  unfold keptIndices
  rw [List.filter_eq_self]
  intro a ha
  rw [List.mem_range] at ha
  have hh := h a ha
  rw [List.getD_eq_getElem?_getD] at hh
  simp [hh]

/-- When no element is empty, rebuilding the swipe list is the identity. -/
lemma map_getD_keptIndices_eq_self {l : List (Option Text)}
    (h : ∀ x ∈ l, isSwipeEmpty x = false) :
    (keptIndices l).map (fun i => l.getD i none) = l := by
  have hall : ∀ i, i < l.length → isSwipeEmpty (l.getD i none) = false := by
    intro i hi
    refine h _ ?_
    rw [List.getD_eq_getElem l none hi]
    exact List.getElem_mem hi
  rw [keptIndices_eq_range hall]
  exact map_getD_range l none

/-- Characterization of the direct-mutation cleaner on a message with a
swipes array: the all-empty / partial / no-op trichotomy, with the
rebuilt swipes, metadata, clamped pointer and mirrored text in the
partial case. -/
lemma cleanMessageSwipesDirect_some (m : Message) (l : List (Option Text))
    (hs : m.swipes = some l) :
    cleanMessageSwipesDirect m =
      if ((keptIndices l).map (fun i => l.getD i none)).length = 0 then
        (m, { removedSwipes :=
                l.length - ((keptIndices l).map (fun i => l.getD i none)).length,
              messageDeleted := true, modified := true })
      else if 0 < l.length - ((keptIndices l).map (fun i => l.getD i none)).length then
        ({ m with
            swipes := some ((keptIndices l).map (fun i => l.getD i none)),
            swipe_info :=
              match m.swipe_info with
              | some info =>
                some (((keptIndices l).map (fun i => info.getD i none)).filter
                  Option.isSome)
              | none => m.swipe_info,
            swipe_id := clampSwipeId m.swipe_id
              ((keptIndices l).map (fun i => l.getD i none)).length,
            mes := jsIndex ((keptIndices l).map (fun i => l.getD i none))
              (clampSwipeId m.swipe_id
                ((keptIndices l).map (fun i => l.getD i none)).length) },
         { removedSwipes :=
             l.length - ((keptIndices l).map (fun i => l.getD i none)).length,
           messageDeleted := false, modified := true })
      else
        (m, { removedSwipes :=
                l.length - ((keptIndices l).map (fun i => l.getD i none)).length,
              messageDeleted := false, modified := false }) := by
  cases hi : m.swipe_info with
  | some info =>
    unfold cleanMessageSwipesDirect
    rw [hs, hi]
  | none =>
    unfold cleanMessageSwipesDirect
    rw [hs, hi]

/-- Characterization of the direct-mutation cleaner on a message without
a swipes array. -/
lemma cleanMessageSwipesDirect_none (m : Message) (hs : m.swipes = none) :
    cleanMessageSwipesDirect m =
      if isSwipeEmpty m.mes = true then
        (m, { removedSwipes := 0, messageDeleted := true, modified := true })
      else
        (m, { removedSwipes := 0, messageDeleted := false, modified := false }) := by
  unfold cleanMessageSwipesDirect
  rw [hs]

/-- A message whose swipes are all non-empty is reported unmodified by a
direct-mutation run. -/
lemma cleanMessageSwipesDirect_not_modified_of_all_nonEmpty (m2 : Message)
    (ne : List (Option Text)) (hsw : m2.swipes = some ne) (hne : ne ≠ [])
    (hall : ∀ x ∈ ne, isSwipeEmpty x = false) :
    (cleanMessageSwipesDirect m2).2.modified = false := by
  have hkept : (keptIndices ne).map (fun i => ne.getD i none) = ne :=
    map_getD_keptIndices_eq_self hall
  rw [cleanMessageSwipesDirect_some m2 ne hsw]
  rw [hkept]
  rw [if_neg (fun hh => hne (List.length_eq_zero.mp hh))]
  rw [if_neg (by omega)]

/-- Indexing a JS array with a non-negative integer index hits the
element (or its default). -/
lemma jsIndex_natCast {α : Type} (xs : List (Option α)) (j : Nat) :
    jsIndex xs (JsNum.num (j : Int)) = xs.getD j none := by
  show (if 0 ≤ (j : Int) then xs.getD ((j : Int)).toNat none else none) =
    xs.getD j none
  rw [if_pos (Int.natCast_nonneg j)]
  rw [Int.toNat_natCast]

/-- Clamping an integer pointer against a positive length yields an
in-bounds natural index. -/
lemma clampSwipeId_num (k : Int) (len : Nat) (hlen : 0 < len) :
    ∃ j : Nat, j < len ∧ clampSwipeId (JsNum.num k) len = JsNum.num (j : Int) := by
  simp only [clampSwipeId]
  by_cases hp : ((len : Int) ≤ k)
  · have hge : JsNum.geNat (JsNum.num k) len = true := by
      simp [JsNum.geNat, hp]
    have hlt : JsNum.ltZero (JsNum.num ((len : Int) - 1)) = false := by
      simp only [JsNum.ltZero, decide_eq_false_iff_not]
      omega
    rw [hge]
    simp only [if_true]
    rw [hlt]
    simp only [Bool.false_eq_true, if_false]
    refine ⟨len - 1, by omega, ?_⟩
    congr 1
    omega
  · have hge : JsNum.geNat (JsNum.num k) len = false := by
      simp [JsNum.geNat, hp]
    rw [hge]
    simp only [Bool.false_eq_true, if_false]
    by_cases hneg : (k < 0)
    · have hlt : JsNum.ltZero (JsNum.num k) = true := by
        simp [JsNum.ltZero, hneg]
      rw [hlt]
      simp only [if_true]
      exact ⟨0, hlen, by norm_num⟩
    · have hlt : JsNum.ltZero (JsNum.num k) = false := by
        simp only [JsNum.ltZero, decide_eq_false_iff_not]
        omega
      rw [hlt]
      simp only [Bool.false_eq_true, if_false]
      refine ⟨k.toNat, by omega, ?_⟩
      congr 1
      omega

/-- Claim C5 fails as stated: on a message whose swipes are all empty,
plan-then-apply leaves the message in place unchanged (the deletion is
the caller's job), so a second run still reports `modified = true`. -/
theorem c5_idempotence_counterexample :
    (cleanMessageSwipesDirect allEmptyTwoSwipes).2.modified = true ∧
    (cleanMessageSwipesDirect
      ((cleanMessageSwipesDirect allEmptyTwoSwipes).1)).2.modified = true := by
  decide

/-- Claim C5 as amended: for every message whose first run does not call
for whole-message deletion, running the direct-mutation plan-then-apply a
second time on the resulting message reports `modified = false`. -/
theorem c5_idempotent_unless_whole_deletion (m : Message)
    (h : (cleanMessageSwipesDirect m).2.messageDeleted = false) :
    (cleanMessageSwipesDirect ((cleanMessageSwipesDirect m).1)).2.modified = false := by
  cases hs : m.swipes with
  | none =>
    rw [cleanMessageSwipesDirect_none m hs] at h ⊢
    by_cases he : isSwipeEmpty m.mes = true
    · rw [if_pos he] at h
      exact absurd h (by simp)
    · rw [if_neg he]
      dsimp only
      rw [cleanMessageSwipesDirect_none m hs, if_neg he]
  | some l =>
    have hchar := cleanMessageSwipesDirect_some m l hs
    by_cases h0 : ((keptIndices l).map (fun i => l.getD i none)).length = 0
    · rw [hchar, if_pos h0] at h
      exact absurd h (by simp)
    · by_cases hr : 0 < l.length - ((keptIndices l).map (fun i => l.getD i none)).length
      · rw [hchar, if_neg h0, if_pos hr]
        dsimp only
        refine cleanMessageSwipesDirect_not_modified_of_all_nonEmpty _
          ((keptIndices l).map (fun i => l.getD i none)) rfl ?_ ?_
        · intro hnil
          refine h0 ?_
          rw [hnil]
          rfl
        · intro x hx
          exact nonEmpty_of_mem_keptMap hx
      · rw [hchar, if_neg h0, if_neg hr]
        dsimp only
        rw [hchar, if_neg h0, if_neg hr]

/-- Witness for the amended C5 at a concrete partial-removal message. -/
theorem c5_idempotent_unless_whole_deletion_witness :
    (cleanMessageSwipesDirect partialEmptyAi).2.messageDeleted = false ∧
    (cleanMessageSwipesDirect
      ((cleanMessageSwipesDirect partialEmptyAi).1)).2.modified = false :=
  ⟨by decide, c5_idempotent_unless_whole_deletion partialEmptyAi (by decide)⟩

/-- Claim C2 fails as stated for non-integer pointers: a partial-removal
application on a message whose `swipe_id` is `NaN`/`undefined` leaves the
pointer non-integer and the displayed text `undefined`, violating the
bounds-and-mirror invariant. -/
theorem c2_pointer_invariant_counterexample :
    (cleanMessageSwipesDirect nanPointerAi).2.modified = true ∧
    (cleanMessageSwipesDirect nanPointerAi).2.messageDeleted = false ∧
    ¬ pointerInvariant (cleanMessageSwipesDirect nanPointerAi).1 := by
  decide

/-- Claim C2 as amended: for every message with a variants sequence and
an integer `activeVariantIndex` (any integer, in- or out-of-bounds),
after a direct-mutation partial-removal application the pointer is an
in-bounds index and the displayed text mirrors the active variant. -/
theorem c2_pointer_invariant_integer (m : Message) (l : List (Option Text))
    (k : Int) (hs : m.swipes = some l) (hid : m.swipe_id = JsNum.num k)
    (hdel : (cleanMessageSwipesDirect m).2.messageDeleted = false)
    (hrem : 0 < (cleanMessageSwipesDirect m).2.removedSwipes) :
    pointerInvariant (cleanMessageSwipesDirect m).1 := by
  have hchar := cleanMessageSwipesDirect_some m l hs
  by_cases h0 : ((keptIndices l).map (fun i => l.getD i none)).length = 0
  · rw [hchar, if_pos h0] at hdel
    exact absurd hdel (by simp)
  · by_cases hr : 0 < l.length - ((keptIndices l).map (fun i => l.getD i none)).length
    · rw [hchar, if_neg h0, if_pos hr]
      dsimp only
      rw [hid]
      obtain ⟨j, hj, hcl⟩ :=
        clampSwipeId_num k ((keptIndices l).map (fun i => l.getD i none)).length
          (Nat.pos_of_ne_zero h0)
      rw [hcl]
      unfold pointerInvariant
      dsimp only
      exact ⟨⟨j, hj⟩, rfl, (jsIndex_natCast _ j).symm⟩
    · rw [hchar, if_neg h0, if_neg hr] at hrem
      dsimp only at hrem
      exact absurd hrem hr

/-- Witness for the amended C2 at a concrete message with an
out-of-bounds integer pointer. -/
theorem c2_pointer_invariant_integer_witness :
    (cleanMessageSwipesDirect outOfBoundsAi).2.messageDeleted = false ∧
    pointerInvariant (cleanMessageSwipesDirect outOfBoundsAi).1 :=
  ⟨by decide,
   c2_pointer_invariant_integer outOfBoundsAi [some [], some ['a']] 5 rfl rfl
     (by decide) (by decide)⟩

/-- Claim C4: when `variantMetadata` is present and index-aligned with
the variants (a record at every position, equal lengths), after a
direct-mutation application that does not delete the message the
surviving metadata and the surviving variants are read off the same kept
index list: they have equal length and the entry at each position still
accompanies the variant it originally accompanied. -/
theorem c4_metadata_alignment (m : Message) (l : List (Option Text))
    (info : List (Option Nat)) (hs : m.swipes = some l)
    (hi : m.swipe_info = some info) (hlen : info.length = l.length)
    (hrec : ∀ e ∈ info, e ≠ none)
    (hdel : (cleanMessageSwipesDirect m).2.messageDeleted = false) :
    (cleanMessageSwipesDirect m).1.swipes =
      some ((keptIndices l).map (fun i => l.getD i none)) ∧
    (cleanMessageSwipesDirect m).1.swipe_info =
      some ((keptIndices l).map (fun i => info.getD i none)) ∧
    ((keptIndices l).map (fun i => info.getD i none)).length =
      ((keptIndices l).map (fun i => l.getD i none)).length := by
  have hfilter : ((keptIndices l).map (fun i => info.getD i none)).filter
      Option.isSome = (keptIndices l).map (fun i => info.getD i none) := by
    rw [List.filter_eq_self]
    intro a ha
    obtain ⟨i, hi2, rfl⟩ := List.mem_map.mp ha
    have hilt : i < info.length := by
      rw [hlen]
      exact (mem_keptIndices.mp hi2).1
    have hmem : info.getD i none ∈ info := by
      rw [List.getD_eq_getElem info none hilt]
      exact List.getElem_mem hilt
    exact Option.isSome_iff_ne_none.mpr (hrec _ hmem)
  have hchar := cleanMessageSwipesDirect_some m l hs
  by_cases h0 : ((keptIndices l).map (fun i => l.getD i none)).length = 0
  · rw [hchar, if_pos h0] at hdel
    exact absurd hdel (by simp)
  · by_cases hr : 0 < l.length - ((keptIndices l).map (fun i => l.getD i none)).length
    · rw [hchar, if_neg h0, if_pos hr]
      dsimp only
      rw [hi]
      refine ⟨rfl, ?_, by simp⟩
      show some (((keptIndices l).map (fun i => info.getD i none)).filter
          Option.isSome) =
        some ((keptIndices l).map (fun i => info.getD i none))
      rw [hfilter]
    · have hle : ((keptIndices l).map (fun i => l.getD i none)).length ≤ l.length := by
        rw [List.length_map]
        unfold keptIndices
        calc ((List.range l.length).filter
              (fun i => !(isSwipeEmpty (l.getD i none)))).length
            ≤ (List.range l.length).length := List.length_filter_le _ _
          _ = l.length := List.length_range l.length
      have hkept : keptIndices l = List.range l.length := by
        refine List.Sublist.eq_of_length ?_ ?_
        · unfold keptIndices
          exact List.filter_sublist _
        · have hEq : ((keptIndices l).map (fun i => l.getD i none)).length =
              l.length := by omega
          rw [List.length_map] at hEq
          rw [hEq, List.length_range]
      rw [hchar, if_neg h0, if_neg hr]
      dsimp only
      refine ⟨?_, ?_, by simp⟩
      · rw [hs, hkept, map_getD_range]
      · rw [hi, hkept]
        rw [show List.range l.length = List.range info.length from by rw [hlen]]
        rw [map_getD_range]

/-- Witness for C4 at a message carrying aligned metadata records: the
middle (empty) variant and its record are dropped together. -/
theorem c4_metadata_alignment_witness :
    (cleanMessageSwipesDirect metaAlignedAi).1.swipes =
      some [some ['a'], some ['b']] ∧
    (cleanMessageSwipesDirect metaAlignedAi).1.swipe_info =
      some [some 10, some 30] := by
  obtain ⟨h1, h2, _⟩ := c4_metadata_alignment metaAlignedAi
    [some ['a'], some [], some ['b']] [some 10, some 20, some 30]
    rfl rfl (by decide) (by decide) (by decide)
  exact ⟨h1.trans (by decide), h2.trans (by decide)⟩

/-- Claim C3 evaluated at the failing input: on a transcript whose sole
message is an all-empty AI message, the `part_000` variant splices the
message out (transcript length 0, no refusal), while `src/index.js` and
`part_001` refuse the deletion and leave the length at 1, as the claim
requires. -/
theorem c3_sole_message_guard_divergence :
    processLastMessage000 [soleEmptyAi] true = ([], true) ∧
    processLastMessage000 [soleEmptyAi] false = ([], true) ∧
    processLastMessage001 [soleEmptyAi] (some true) true = ([soleEmptyAi], false) ∧
    processLastMessage001 [soleEmptyAi] (some true) false = ([soleEmptyAi], false) ∧
    processLastMessageIdx [soleEmptyAi] (some true) true (fun _ => true) =
      ([soleEmptyAi], false, []) ∧
    processLastMessageIdx [soleEmptyAi] (some true) false (fun _ => true) =
      ([soleEmptyAi], false, []) := by
  decide

/-- Claim C7 fails as stated for the `part_001` variant: an automatically
triggered pass with `autoDelete = false` still performs destructive
variant removal (here the empty first swipe of the last AI message is
removed and the pass reports success). -/
theorem c7_autodelete_gate_counterexample :
    (processLastMessage001 [userGreeting, partialEmptyAi] (some false) false).2 =
      true ∧
    (processLastMessage001 [userGreeting, partialEmptyAi] (some false) false).1.get? 1 =
      some { is_user := .jsFalse, mes := some ['a'], swipes := some [some ['a']],
             swipe_id := .num 0, swipe_info := none } := by
  decide

/-- Claim C7 as amended: in `src/index.js` the `autoDelete` gate blocks
the entire automatic pass (no mutation, no API call, and the pass reports
false); in the `part_001` variant it blocks only automatic whole-message
deletion (the transcript length is preserved) while automatic variant
removal is not gated; manually triggered passes ignore the setting in
both implementations. -/
theorem c7_autodelete_gate_amended :
    (∀ (chat : List Message) (s : Option Bool) (ok : Option Nat → Bool),
      s.getD false = false →
      processLastMessageIdx chat s false ok = (chat, false, [])) ∧
    (∀ (chat : List Message) (s : Option Bool),
      s.getD false = false →
      ((processLastMessage001 chat s false).1).length = chat.length) ∧
    (∀ (chat : List Message) (s t : Option Bool) (ok : Option Nat → Bool),
      processLastMessageIdx chat s true ok = processLastMessageIdx chat t true ok) ∧
    (∀ (chat : List Message) (s t : Option Bool),
      processLastMessage001 chat s true = processLastMessage001 chat t true) := by
  refine ⟨?_, ?_, ?_, ?_⟩
  · intro chat s ok hgate
    unfold processLastMessageIdx
    by_cases h1 : chat.length = 0
    · rw [if_pos h1]
    · rw [if_neg h1]
      dsimp only
      by_cases h2 : lastAiMessageIndex chat = -1
      · rw [if_pos h2]
      · rw [if_neg h2, hgate]
        rfl
  · intro chat s hgate
    unfold processLastMessage001
    by_cases h1 : chat.length = 0
    · rw [if_pos h1]
    · rw [if_neg h1]
      dsimp only
      by_cases h2 : lastAiMessageIndex chat = -1
      · rw [if_pos h2]
      · rw [if_neg h2]
        cases hget : chat.get? (lastAiMessageIndex chat).toNat with
        | none => rfl
        | some message =>
          dsimp only
          cases hmod : (cleanMessageSwipesDirect message).2.modified with
          | false => rfl
          | true =>
            cases hdel : (cleanMessageSwipesDirect message).2.messageDeleted with
            | true =>
              by_cases hle : chat.length ≤ 1
              · simp [hle]
              · simp [hle, hgate, List.length_set]
            | false =>
              simp [List.length_set]
  · intro chat s t ok
    unfold processLastMessageIdx
    simp only [Bool.not_true, Bool.false_and]
  · intro chat s t
    unfold processLastMessage001
    simp only [Bool.not_true, Bool.false_and]

/-- Witness for the amended C7: a concrete gated automatic pass on the
`src/index.js` implementation leaves the transcript untouched. -/
theorem c7_autodelete_gate_amended_witness :
    ((some false : Option Bool).getD false = false) ∧
    processLastMessageIdx [userGreeting, partialEmptyAi] (some false) false
      (fun _ => true) = ([userGreeting, partialEmptyAi], false, []) :=
  ⟨rfl, c7_autodelete_gate_amended.1 [userGreeting, partialEmptyAi] (some false)
    (fun _ => true) rfl⟩

end ERC
